import Mathlib

/-!
# Medix API (`src/server.js`): request handlers and their contract

A shallow embedding of the Express handlers of `src/server.js`.

* JavaScript values that reach the handlers (`req.params.id`, `req.body`, what the
  Prisma client resolves with) are `JSValue`s; numbers are `JSNumber`s.
* The Prisma client is an oracle `Prisma`: it maps each call (model, method, argument
  object) to the value it resolves with or to the error it rejects with. It resolves with
  JSON data (which `res.json` can always serialise) and rejects with `Error` instances,
  as the Prisma client does; any value of these types is allowed, a category id of `0`
  included.
* A handler is a computation in `Eff`: it yields the list of observable events, in order
  (store calls, console output, responses sent on `res`), and its completion (normal, or
  an exception that escaped).
-/

namespace Server

/-! ## JavaScript values -/

/-- A JavaScript Number. A finite value is kept as sign, decimal mantissa and decimal
exponent (`(-1)^negative * mantissa * 10^exponent`), which also distinguishes `-0`. The
rounding of that value to the nearest IEEE double is left out: it never turns a number
into `NaN` or back, and it is the identity on the integers a path id denotes below 2^53. -/
inductive JSNumber where
  | nan
  | infinity (negative : Bool)
  | finite (negative : Bool) (mantissa : Nat) (exponent : Int)
deriving DecidableEq, Repr

/-- A JavaScript value as the handlers see it: `undefined`, or JSON data. -/
inductive JSValue where
  | undefined
  | null
  | bool (b : Bool)
  | number (n : JSNumber)
  | string (s : String)
  | array (items : List JSValue)
  | object (fields : List (String × JSValue))
deriving Repr

/-- An `Error` instance, as thrown by the runtime or rejected by the Prisma client. -/
structure JSError where
  name : String
  message : String
deriving DecidableEq, Repr

/-- Object literal `{ k1: v1, ... }`. -/
abbrev obj (fields : List (String × JSValue)) : JSValue := JSValue.object fields

/-- String literal. -/
abbrev str (s : String) : JSValue := JSValue.string s

/-- ToBoolean: `undefined`, `null`, `false`, `±0`, `NaN` and `""` are falsy, every other
value (every object and array included) is truthy. -/
def truthy : JSValue → Bool
  | .undefined => false
  | .null => false
  | .bool b => b
  | .number .nan => false
  | .number (.infinity _) => true
  | .number (.finite _ m _) => m != 0
  | .string s => s.data != []
  | .array _ => true
  | .object _ => true

/-- The operator `a || b`. -/
def jsOr (a b : JSValue) : JSValue := if truthy a then a else b

/-- The operator `a ?? b`. -/
def nullish (a b : JSValue) : JSValue :=
  match a with
  | .undefined => b
  | .null => b
  | v => v

/-- First binding of a key in a field list. -/
def lookup (k : String) : List (String × JSValue) → Option JSValue
  | [] => none
  | (k', v) :: rest => if k' = k then some v else lookup k rest

/-- Assignment `o[k] = v` on a field list: overwrite in place, or append a new key. -/
def setProp (k : String) (v : JSValue) : List (String × JSValue) → List (String × JSValue)
  | [] => [(k, v)]
  | (k', v') :: rest => if k' = k then (k', v) :: rest else (k', v') :: setProp k v rest

/-- The own keys of an object, in order. -/
def keys (fields : List (String × JSValue)) : List String := fields.map Prod.fst

/-! ## `Number(string)` -/

/-- The code points of StrWhiteSpaceChar (WhiteSpace and LineTerminator). -/
def isStrWhiteSpaceChar (c : Char) : Bool :=
  let n := c.toNat
  n == 0x09 || n == 0x0A || n == 0x0B || n == 0x0C || n == 0x0D || n == 0x20 ||
  n == 0xA0 || n == 0x1680 || (0x2000 ≤ n && n ≤ 0x200A) || n == 0x2028 || n == 0x2029 ||
  n == 0x202F || n == 0x205F || n == 0x3000 || n == 0xFEFF

/-- Strip StrWhiteSpace from both ends. -/
def trimWhiteSpace (cs : List Char) : List Char :=
  ((cs.dropWhile isStrWhiteSpaceChar).reverse.dropWhile isStrWhiteSpaceChar).reverse

/-- Value of one digit in the given radix (2, 8, 10 or 16). -/
def digitValue (radix : Nat) (c : Char) : Option Nat :=
  let n := c.toNat
  let v : Option Nat :=
    if 48 ≤ n && n ≤ 57 then some (n - 48)
    else if 97 ≤ n && n ≤ 102 then some (n - 87)
    else if 65 ≤ n && n ≤ 70 then some (n - 55)
    else none
  match v with
  | some d => if d < radix then some d else none
  | none => none

/-- Value of a digit string, most significant digit first, on top of `acc`;
`none` when a character is not a digit of the radix. -/
def digitsValue (radix : Nat) : List Char → Nat → Option Nat
  | [], acc => some acc
  | c :: rest, acc =>
    match digitValue radix c with
    | some d => digitsValue radix rest (acc * radix + d)
    | none => none

/-- A non-empty digit string of the radix. -/
def numeral (radix : Nat) (cs : List Char) : Option Nat :=
  match cs with
  | [] => none
  | _ => digitsValue radix cs 0

/-- Split off the longest run of decimal digits. -/
def decimalDigits : List Char → List Char × List Char
  | [] => ([], [])
  | c :: rest =>
    if (digitValue 10 c).isSome then
      let r := decimalDigits rest
      (c :: r.1, r.2)
    else ([], c :: rest)

/-- ExponentPart, optional: what follows the mantissa must be empty or
`e`/`E`, an optional sign and at least one decimal digit. -/
def exponentPart (cs : List Char) : Option Int :=
  match cs with
  | [] => some 0
  | c :: rest =>
    if c = 'e' ∨ c = 'E' then
      match rest with
      | [] => none
      | s :: ds =>
        if s = '+' then (numeral 10 ds).map Int.ofNat
        else if s = '-' then (numeral 10 ds).map (fun n => - Int.ofNat n)
        else (numeral 10 (s :: ds)).map Int.ofNat
    else none

/-- StrUnsignedDecimalLiteral: `Infinity`, `d+ . d* exp?`, `. d+ exp?` or `d+ exp?`. -/
def strUnsignedDecimalLiteral (negative : Bool) (cs : List Char) : JSNumber :=
  if cs = ['I', 'n', 'f', 'i', 'n', 'i', 't', 'y'] then .infinity negative
  else
    let ip := (decimalDigits cs).1
    let rest := (decimalDigits cs).2
    match rest with
    | '.' :: rest2 =>
      let fp := (decimalDigits rest2).1
      let rest3 := (decimalDigits rest2).2
      if ip.isEmpty && fp.isEmpty then .nan
      else
        match digitsValue 10 (ip ++ fp) 0, exponentPart rest3 with
        | some m, some e => .finite negative m (e - Int.ofNat fp.length)
        | _, _ => .nan
    | _ =>
      match numeral 10 ip, exponentPart rest with
      | some m, some e => .finite negative m e
      | _, _ => .nan

/-- StrNumericLiteral on trimmed, non-empty text: a radix literal `0x`/`0o`/`0b`
(unsigned), or an optionally signed decimal literal. -/
def strNumericLiteral (cs : List Char) : JSNumber :=
  match cs with
  | '0' :: r :: ds =>
    if r = 'x' ∨ r = 'X' then
      match numeral 16 ds with
      | some m => .finite false m 0
      | none => .nan
    else if r = 'o' ∨ r = 'O' then
      match numeral 8 ds with
      | some m => .finite false m 0
      | none => .nan
    else if r = 'b' ∨ r = 'B' then
      match numeral 2 ds with
      | some m => .finite false m 0
      | none => .nan
    else strUnsignedDecimalLiteral false cs
  | '+' :: ds => strUnsignedDecimalLiteral false ds
  | '-' :: ds => strUnsignedDecimalLiteral true ds
  | _ => strUnsignedDecimalLiteral false cs

/-- The conversion `Number(s)` for a string `s` (StringToNumber): white space is trimmed, the empty
text is `+0`, text that is no StrNumericLiteral is `NaN`. -/
def Number (s : String) : JSNumber :=
  match trimWhiteSpace s.data with
  | [] => .finite false 0 0
  | cs => strNumericLiteral cs

/-- The test `Number.isNaN(n)`. -/
def Number.isNaN (n : JSNumber) : Bool :=
  match n with
  | .nan => true
  | _ => false

/-! ## Effects: store calls, console output, responses -/

/-- One call on the Prisma client: `prisma.<model>.<method>(<args>)`; the raw query
`prisma.$queryRawUnsafe(sql)` has the empty model name and the SQL text as argument. -/
structure StoreCall where
  model : String
  method : String
  args : JSValue
deriving Repr

/-- The data store: what each call resolves with, or the error it rejects with. -/
abbrev Prisma := StoreCall → Except JSError JSValue

/-- What is sent as the body of a response. -/
inductive ResBody where
  | json (v : JSValue)
  | text (s : String)
  | empty
deriving Repr

/-- What a handler does that can be observed from outside, one event per action. -/
inductive Event where
  | storeCall (c : StoreCall)
  | consoleError (label : String) (e : JSError)
  | consoleWarn (label : String) (detail : String)
  | respond (status : Nat) (body : ResBody)
deriving Repr

/-- A computation that has run: the events it produced, in order, and how it completed
(a value, or the exception it threw). -/
structure Eff (α : Type) where
  events : List Event
  outcome : Except JSError α

/-- Completion with a value and no event. -/
def Eff.pure {α : Type} (a : α) : Eff α := ⟨[], .ok a⟩

/-- Sequencing: the continuation runs only after a normal completion. -/
def Eff.bind {α β : Type} (x : Eff α) (f : α → Eff β) : Eff β :=
  match x.outcome with
  | .ok a => ⟨x.events ++ (f a).events, (f a).outcome⟩
  | .error e => ⟨x.events, .error e⟩

/-- The statement `throw e`. -/
def Eff.throw {α : Type} (e : JSError) : Eff α := ⟨[], .error e⟩

/-- The statement `try { body } catch (e) { handler }`: events of the body up to the
throw are kept. -/
def Eff.tryCatch {α : Type} (body : Eff α) (handler : JSError → Eff α) : Eff α :=
  match body.outcome with
  | .ok _ => body
  | .error e => ⟨body.events ++ (handler e).events, (handler e).outcome⟩

instance : Monad Eff where
  pure := Eff.pure
  bind := Eff.bind

/-- Emit one event. -/
def emit (ev : Event) : Eff Unit := ⟨[ev], .ok ()⟩

/-- Awaiting `prisma.<model>.<method>(args)`: the call is issued, then it resolves or
rejects as the store decides. -/
def prismaCall (prisma : Prisma) (model method : String) (args : JSValue) : Eff JSValue :=
  ⟨[.storeCall ⟨model, method, args⟩], prisma ⟨model, method, args⟩⟩

/-- The call `console.error(label, e)`. -/
def consoleError (label : String) (e : JSError) : Eff Unit := emit (.consoleError label e)

/-- The call `console.warn(label, detail)`. -/
def consoleWarn (label : String) (detail : String) : Eff Unit := emit (.consoleWarn label detail)

/-- The call `res.status(status).json(v)`; `res.json(v)` is the case of status 200. -/
def resJson (status : Nat) (v : JSValue) : Eff Unit := emit (.respond status (.json v))

/-! ## Property access -/

/-- The TypeError of a property read on `undefined` or `null`. -/
def cannotReadProperty (k : String) : JSError :=
  ⟨"TypeError", "Cannot read properties of undefined or null (reading " ++ k ++ ")"⟩

/-- The TypeError of `k in v` for a `v` that is not an object. -/
def cannotUseIn (k : String) : JSError :=
  ⟨"TypeError", "Cannot use \x27in\x27 operator to search for " ++ k⟩

/-- Property read `v[k]` (also one name of a destructuring pattern) for a key `k` that is
neither an index, `length`, nor a member of a built-in prototype, as are all keys the
handlers read: the own property of an object, `undefined` where there is none, and a
TypeError on `undefined` and `null`. -/
def jsGet (v : JSValue) (k : String) : Eff JSValue :=
  match v with
  | .undefined => Eff.throw (cannotReadProperty k)
  | .null => Eff.throw (cannotReadProperty k)
  | .object fields => Eff.pure ((lookup k fields).getD .undefined)
  | _ => Eff.pure .undefined

/-- Property names every object inherits from `Object.prototype`. -/
def objectPrototypeKeys : List String :=
  ["constructor", "__defineGetter__", "__defineSetter__", "hasOwnProperty",
   "__lookupGetter__", "__lookupSetter__", "isPrototypeOf", "propertyIsEnumerable",
   "toString", "valueOf", "__proto__", "toLocaleString"]

/-- Property names an array inherits from `Array.prototype` (ES2023). -/
def arrayPrototypeKeys : List String :=
  ["length", "constructor", "at", "concat", "copyWithin", "fill", "find", "findIndex",
   "findLast", "findLastIndex", "lastIndexOf", "pop", "push", "reverse", "shift",
   "unshift", "slice", "sort", "splice", "includes", "indexOf", "join", "keys",
   "entries", "values", "forEach", "filter", "flat", "flatMap", "map", "every", "some",
   "reduce", "reduceRight", "toLocaleString", "toString", "toReversed", "toSorted",
   "toSpliced", "with"]

/-- Whether `k` is the canonical text of an index below `n`. -/
def isIndexBelow (k : String) (n : Nat) : Bool :=
  match numeral 10 k.data with
  | some i => i < n && (k.data.length = 1 || k.data.head? != some '0')
  | none => false

/-- The operator `k in v`: own or inherited property of an object or array, a TypeError
on every value that is not an object. -/
def jsIn (k : String) (v : JSValue) : Eff Bool :=
  match v with
  | .object fields => Eff.pure (decide (k ∈ keys fields) || decide (k ∈ objectPrototypeKeys))
  | .array items =>
    Eff.pure (isIndexBelow k items.length || decide (k ∈ arrayPrototypeKeys)
      || decide (k ∈ objectPrototypeKeys))
  | _ => Eff.throw (cannotUseIn k)

/-- Object spread `{ ...target, ...source }` onto the fields built so far: the own
properties of `source` are assigned in order; a `source` without own properties adds none. -/
def spread (target : List (String × JSValue)) (source : JSValue) : List (String × JSValue) :=
  match source with
  | .object fields => fields.foldl (fun acc kv => setProp kv.1 kv.2 acc) target
  | _ => target

/-! ## The request and the utilities of `server.js` -/

/-- The route parameters: `req.params`. -/
structure Params where
  id : String
deriving Repr

/-- The part of the request the handlers read: `req.params.id` (a string whenever the
route has `:id`) and `req.body` (`undefined` when no body was parsed). -/
structure Request where
  params : Params
  body : JSValue
deriving Repr

/-- The utility `httpError(res, status, msg)`: `res.status(status).json({ error: msg })`. -/
def httpError (status : Nat) (msg : String) : Eff Unit :=
  resJson status (obj [("error", str msg)])

/-- The utility `ensureDefaultCategory()`: upsert the category "General" and return its id; on any
failure warn and return `null`. -/
def ensureDefaultCategory (prisma : Prisma) : Eff JSValue :=
  Eff.tryCatch
    (do
      let cat ← prismaCall prisma "category" "upsert"
        (obj [("where", obj [("name", str "General")]),
              ("update", obj []),
              ("create", obj [("name", str "General")])])
      jsGet cat "id")
    (fun e => do
      consoleWarn "No se pudo asegurar Category \"General\":" e.message
      pure JSValue.null)

/-! ## Handlers -/

/-- Handler of `GET /api/health`. -/
def getHealth (_prisma : Prisma) (_req : Request) : Eff Unit :=
  resJson 200 (obj [("ok", .bool true)])

/-- Handler of `GET /api/users`. -/
def getUsers (prisma : Prisma) (_req : Request) : Eff Unit :=
  Eff.tryCatch
    (do
      let users ← prismaCall prisma "user" "findMany" (obj [("orderBy", obj [("id", str "asc")])])
      resJson 200 users)
    (fun e => do
      consoleError "GET /api/users" e
      httpError 500 "No se pudieron listar usuarios")

/-- Handler of `POST /api/users`. -/
def postUsers (prisma : Prisma) (req : Request) : Eff Unit :=
  Eff.tryCatch
    (do
      let body := jsOr req.body (obj [])
      let name ← jsGet body "name"
      let email ← jsGet body "email"
      if !truthy name || !truthy email then
        httpError 400 "name y email son requeridos"
      else do
        let u ← prismaCall prisma "user" "create" (obj [("data", obj [("name", name), ("email", email)])])
        resJson 201 u)
    (fun e => do
      consoleError "POST /api/users" e
      httpError 500 "No se pudo crear usuario (¿email duplicado?)")

/-- Handler of `GET /api/users/:id/tasks`. -/
def getUserTasks (prisma : Prisma) (req : Request) : Eff Unit :=
  Eff.tryCatch
    (do
      let userId := Number req.params.id
      if Number.isNaN userId then
        httpError 400 "userId inválido"
      else do
        let tasks ← prismaCall prisma "task" "findMany"
          (obj [("where", obj [("userId", .number userId)]),
                ("orderBy", obj [("id", str "desc")])])
        resJson 200 tasks)
    (fun e => do
      consoleError "GET /api/users/:id/tasks" e
      httpError 500 "No se pudieron listar tareas")

/-- Handler of `POST /api/users/:id/tasks`. -/
def postUserTasks (prisma : Prisma) (req : Request) : Eff Unit :=
  Eff.tryCatch
    (do
      let userId := Number req.params.id
      if Number.isNaN userId then
        httpError 400 "userId inválido"
      else do
        let body := jsOr req.body (obj [])
        let title ← jsGet body "title"
        let description ← jsGet body "description"
        if !truthy title then
          httpError 400 "title es requerido"
        else do
          let defaultCategoryId ← ensureDefaultCategory prisma
          let t ← prismaCall prisma "task" "create"
            (obj [("data", obj (spread
              [("title", title),
               ("description", nullish description .null),
               ("completed", .bool false),
               ("userId", .number userId)]
              (if truthy defaultCategoryId then obj [("categoryId", defaultCategoryId)]
               else obj [])))])
          resJson 201 t)
    (fun e => do
      consoleError "POST /api/users/:id/tasks" e
      httpError 500 "No se pudo crear la tarea")

/-- The four conditional assignments that build `data` in `PUT /api/tasks/:id`. -/
def updateData (body : JSValue) : Eff (List (String × JSValue)) := do
  let mut data : List (String × JSValue) := []
  if (← jsIn "title" body) then
    data := setProp "title" (← jsGet body "title") data
  if (← jsIn "description" body) then
    data := setProp "description" (← jsGet body "description") data
  if (← jsIn "completed" body) then
    data := setProp "completed" (.bool (truthy (← jsGet body "completed"))) data
  if (← jsIn "categoryId" body) then
    data := setProp "categoryId" (← jsGet body "categoryId") data
  return data

/-- Handler of `PUT /api/tasks/:id`. -/
def putTask (prisma : Prisma) (req : Request) : Eff Unit :=
  Eff.tryCatch
    (do
      let id := Number req.params.id
      if Number.isNaN id then
        httpError 400 "id inválido"
      else do
        let data ← updateData req.body
        let t ← prismaCall prisma "task" "update"
          (obj [("where", obj [("id", .number id)]), ("data", obj data)])
        resJson 200 t)
    (fun e => do
      consoleError "PUT /api/tasks/:id" e
      httpError 500 "No se pudo actualizar la tarea")

/-- Handler of `DELETE /api/tasks/:id`. -/
def deleteTask (prisma : Prisma) (req : Request) : Eff Unit :=
  Eff.tryCatch
    (do
      let id := Number req.params.id
      if Number.isNaN id then
        httpError 400 "id inválido"
      else do
        let _ ← prismaCall prisma "task" "delete" (obj [("where", obj [("id", .number id)])])
        emit (.respond 204 .empty))
    (fun e => do
      consoleError "DELETE /api/tasks/:id" e
      httpError 500 "No se pudo eliminar la tarea")

/-! ## The read-only views: SQL text and what it selects -/

/-- An expression of a select list: a column of a table alias, or `COALESCE(column, \x27\x27)`. -/
inductive SelectExpr where
  | column (table : String) (name : String)
  | coalesce (table : String) (name : String)
deriving DecidableEq, Repr

/-- One item of a select list, with its `AS` alias if any. -/
structure SelectItem where
  expr : SelectExpr
  asName : Option String
deriving DecidableEq, Repr

/-- One join: `JOIN` or `LEFT JOIN`, the table with its alias as written, the condition. -/
structure JoinClause where
  kind : String
  table : String
  condition : String
deriving DecidableEq, Repr

/-- A `SELECT ... FROM ... [joins] ORDER BY ...` statement, the only form of statement the
views send. -/
structure SelectQuery where
  items : List SelectItem
  source : String
  joins : List JoinClause
  orderBy : String
  descending : Bool
deriving DecidableEq, Repr

/-- Text of a select expression. -/
def SelectExpr.render : SelectExpr → String
  | .column t n => t ++ "." ++ n
  | .coalesce t n => "COALESCE(" ++ t ++ "." ++ n ++ ",\x27\x27)"

/-- Text of a select item. -/
def SelectItem.render (i : SelectItem) : String :=
  match i.asName with
  | some a => i.expr.render ++ " AS " ++ a
  | none => i.expr.render

/-- Text of a join clause, on a line of its own. -/
def JoinClause.render (j : JoinClause) : String :=
  "\n      " ++ j.kind ++ " " ++ j.table ++ " ON " ++ j.condition

/-- The statement as laid out in the template literals of `server.js`. -/
def SelectQuery.render (q : SelectQuery) : String :=
  "\n      SELECT " ++ ",\n             ".intercalate (q.items.map SelectItem.render)
    ++ "\n      FROM " ++ q.source
    ++ String.join (q.joins.map JoinClause.render)
    ++ "\n      ORDER BY " ++ q.orderBy ++ (if q.descending then " DESC" else " ASC")
    ++ "\n    "

/-- The name the database gives a result column: the alias, else the column's own name
(`coalesce` for an unaliased `COALESCE`). -/
def SelectItem.outputName (i : SelectItem) : String :=
  match i.asName, i.expr with
  | some a, _ => a
  | none, .column _ n => n
  | none, .coalesce _ _ => "coalesce"

/-- The result columns of a statement, in order. -/
def SelectQuery.columns (q : SelectQuery) : List String := q.items.map SelectItem.outputName

/-- SQL sent by `GET /api/medix/patients`. -/
def patientsSql : String :=
  "\n      SELECT p.id,\n             p.nombre_completo,\n             p.email,\n             p.fecha_nacimiento,\n             COALESCE(e.nombre,\x27\x27) AS eps_nombre\n      FROM public.patient p\n      LEFT JOIN public.eps e ON e.id = p.eps_id\n      ORDER BY p.id ASC\n    "

/-- SQL sent by `GET /api/medix/doctors`. -/
def doctorsSql : String :=
  "\n      SELECT d.id,\n             d.nombre_completo,\n             d.email,\n             COALESCE(s.nombre,\x27\x27) AS especialidad\n      FROM public.doctor d\n      LEFT JOIN public.specialty s ON s.id = d.specialty_id\n      ORDER BY d.id ASC\n    "

/-- SQL sent by `GET /api/medix/appointments`. -/
def appointmentsSql : String :=
  "\n      SELECT a.id,\n             a.scheduled_at,\n             a.motivo,\n             a.status_code AS estado,\n             p.nombre_completo AS paciente,\n             d.nombre_completo AS doctor\n      FROM public.appointment a\n      JOIN public.patient p ON p.id = a.patient_id\n      JOIN public.doctor  d ON d.id = a.doctor_id\n      ORDER BY a.scheduled_at DESC\n    "

/-- The statement of `appointmentsSql`, clause by clause. -/
def appointmentsQuery : SelectQuery where
  items :=
    [⟨.column "a" "id", none⟩,
     ⟨.column "a" "scheduled_at", none⟩,
     ⟨.column "a" "motivo", none⟩,
     ⟨.column "a" "status_code", some "estado"⟩,
     ⟨.column "p" "nombre_completo", some "paciente"⟩,
     ⟨.column "d" "nombre_completo", some "doctor"⟩]
  source := "public.appointment a"
  joins :=
    [⟨"JOIN", "public.patient p", "p.id = a.patient_id"⟩,
     ⟨"JOIN", "public.doctor  d", "d.id = a.doctor_id"⟩]
  orderBy := "a.scheduled_at"
  descending := true

/-- Awaiting `prisma.$queryRawUnsafe(sql)`. -/
def queryRawUnsafe (prisma : Prisma) (sql : String) : Eff JSValue :=
  prismaCall prisma "" "$queryRawUnsafe" (str sql)

/-- Handler of `GET /api/medix/patients`. -/
def getMedixPatients (prisma : Prisma) (_req : Request) : Eff Unit :=
  Eff.tryCatch
    (do
      let rows ← queryRawUnsafe prisma patientsSql
      resJson 200 rows)
    (fun e => do
      consoleError "GET /api/medix/patients" e
      httpError 500 "No se pudieron cargar pacientes")

/-- Handler of `GET /api/medix/doctors`. -/
def getMedixDoctors (prisma : Prisma) (_req : Request) : Eff Unit :=
  Eff.tryCatch
    (do
      let rows ← queryRawUnsafe prisma doctorsSql
      resJson 200 rows)
    (fun e => do
      consoleError "GET /api/medix/doctors" e
      httpError 500 "No se pudieron cargar doctores")

/-- Handler of `GET /api/medix/appointments`. -/
def getMedixAppointments (prisma : Prisma) (_req : Request) : Eff Unit :=
  Eff.tryCatch
    (do
      let rows ← queryRawUnsafe prisma appointmentsSql
      resJson 200 rows)
    (fun e => do
      consoleError "GET /api/medix/appointments" e
      httpError 500 "No se pudieron cargar citas")

/-- Handler of `GET /`: the plain-text banner. -/
def getRoot (_prisma : Prisma) (_req : Request) : Eff Unit :=
  emit (.respond 200 (.text ("API Medix activa.\n" ++
    "Usa /api/health para ver el estado o /api/users, /api/tasks, /api/medix/* para endpoints.")))

/-! ## Routes -/

/-- The routes registered on `app`, in source order. -/
inductive Route where
  | health
  | listUsers
  | createUser
  | listTasks
  | createTask
  | updateTask
  | deleteTask
  | patients
  | doctors
  | appointments
  | root
deriving DecidableEq, Repr

/-- The handler registered for a route. -/
def handler : Route → Prisma → Request → Eff Unit
  | .health => getHealth
  | .listUsers => getUsers
  | .createUser => postUsers
  | .listTasks => getUserTasks
  | .createTask => postUserTasks
  | .updateTask => putTask
  | .deleteTask => deleteTask
  | .patients => getMedixPatients
  | .doctors => getMedixDoctors
  | .appointments => getMedixAppointments
  | .root => getRoot

/-- The message of the 500 response of a route, as written in its `catch` block
(`none` for the two routes without one). -/
def failureMessage : Route → Option String
  | .health => none
  | .listUsers => some "No se pudieron listar usuarios"
  | .createUser => some "No se pudo crear usuario (¿email duplicado?)"
  | .listTasks => some "No se pudieron listar tareas"
  | .createTask => some "No se pudo crear la tarea"
  | .updateTask => some "No se pudo actualizar la tarea"
  | .deleteTask => some "No se pudo eliminar la tarea"
  | .patients => some "No se pudieron cargar pacientes"
  | .doctors => some "No se pudieron cargar doctores"
  | .appointments => some "No se pudieron cargar citas"
  | .root => none

/-! ## Reading a trace -/

/-- The responses sent, as (status, body), in order. -/
def responses : List Event → List (Nat × ResBody)
  | [] => []
  | .respond s b :: rest => (s, b) :: responses rest
  | _ :: rest => responses rest

/-- The statuses of the responses sent, in order. -/
def statuses (t : List Event) : List Nat := (responses t).map Prod.fst

/-- The store calls issued, in order. -/
def storeCalls : List Event → List StoreCall
  | [] => []
  | .storeCall c :: rest => c :: storeCalls rest
  | _ :: rest => storeCalls rest

/-- Whether a value has `k` as an own property (only objects do, for the keys of a body). -/
def hasOwn (v : JSValue) (k : String) : Bool :=
  match v with
  | .object fields => decide (k ∈ keys fields)
  | _ => false

/-- Whether a value is the array of rows a statement yields: every item an object whose
keys are the result columns of the statement, in order. -/
def isResultOf (q : SelectQuery) (v : JSValue) : Bool :=
  match v with
  | .array items =>
    items.all (fun r =>
      match r with
      | .object fields => decide (keys fields = q.columns)
      | _ => false)
  | _ => false

/-! ## Sample stores and data -/

/-- A store that resolves every call with the same value. -/
def resolving (v : JSValue) : Prisma := fun _ => .ok v

/-- A store that rejects every call with the same error. -/
def rejecting (e : JSError) : Prisma := fun _ => .error e

/-- A store whose category model is unavailable: calls on `category` reject, every other
call resolves with `v`. -/
def withoutCategories (e : JSError) (v : JSValue) : Prisma :=
  fun c => if c.model = "category" then .error e else .ok v

/-- The integer `n` as a JavaScript number. -/
def int (n : Nat) : JSValue := .number (.finite false n 0)

/-- Rejection of a query on a table that is not there. -/
def categoryTableMissing : JSError := ⟨"Error", "relation Category does not exist"⟩

/-- Prisma rejection for a record that does not exist (error code P2025). -/
def recordNotFound : JSError :=
  ⟨"PrismaClientKnownRequestError", "Record to delete does not exist."⟩

/-- One row as the appointments statement yields it. -/
def sampleAppointment : JSValue :=
  obj [("id", int 1), ("scheduled_at", str "2024-05-01T10:00:00.000Z"),
       ("motivo", str "Control"), ("estado", str "PEN"),
       ("paciente", str "Ana Ruiz"), ("doctor", str "Luis Mora")]

/-- The own property `k` of a value, `undefined` where it has none. -/
def ownValue (v : JSValue) (k : String) : JSValue :=
  match v with
  | .object fields => (lookup k fields).getD .undefined
  | _ => .undefined

/-- The error envelope `{ error: msg }` sent with a status. -/
def errorResponse (status : Nat) (msg : String) : Event :=
  .respond status (.json (obj [("error", str msg)]))

/-! ## The store calls the handlers issue -/

/-- The call `prisma.user.findMany({ orderBy: { id: "asc" } })`. -/
def userFindManyCall : StoreCall :=
  ⟨"user", "findMany", obj [("orderBy", obj [("id", str "asc")])]⟩

/-- The call `prisma.user.create({ data: { name, email } })`. -/
def userCreateCall (name email : JSValue) : StoreCall :=
  ⟨"user", "create", obj [("data", obj [("name", name), ("email", email)])]⟩

/-- The call `prisma.task.findMany({ where: { userId }, orderBy: { id: "desc" } })`. -/
def taskFindManyCall (userId : JSNumber) : StoreCall :=
  ⟨"task", "findMany",
    obj [("where", obj [("userId", .number userId)]), ("orderBy", obj [("id", str "desc")])]⟩

/-- The upsert of the category "General". -/
def categoryUpsertCall : StoreCall :=
  ⟨"category", "upsert",
    obj [("where", obj [("name", str "General")]),
         ("update", obj []),
         ("create", obj [("name", str "General")])]⟩

/-- The call `prisma.task.create({ data })`. -/
def taskCreateCall (data : List (String × JSValue)) : StoreCall :=
  ⟨"task", "create", obj [("data", obj data)]⟩

/-- The call `prisma.task.update({ where: { id }, data })`. -/
def taskUpdateCall (id : JSNumber) (data : List (String × JSValue)) : StoreCall :=
  ⟨"task", "update", obj [("where", obj [("id", .number id)]), ("data", obj data)]⟩

/-- The call `prisma.task.delete({ where: { id } })`. -/
def taskDeleteCall (id : JSNumber) : StoreCall :=
  ⟨"task", "delete", obj [("where", obj [("id", .number id)])]⟩

/-- The call `prisma.$queryRawUnsafe(sql)`. -/
def rawQueryCall (sql : String) : StoreCall := ⟨"", "$queryRawUnsafe", str sql⟩

/-- What `ensureDefaultCategory` makes of the result of the upsert: the warning it prints
(if any) and the value it returns. -/
def categoryOutcome (r : Except JSError JSValue) : List Event × JSValue :=
  match r with
  | .ok .undefined =>
    ([.consoleWarn "No se pudo asegurar Category \"General\":" (cannotReadProperty "id").message],
      .null)
  | .ok .null =>
    ([.consoleWarn "No se pudo asegurar Category \"General\":" (cannotReadProperty "id").message],
      .null)
  | .ok cat => ([], ownValue cat "id")
  | .error e => ([.consoleWarn "No se pudo asegurar Category \"General\":" e.message], .null)

/-- The `data` of the task creation: the four fixed fields, and `categoryId` when the
default category id is truthy. -/
def taskCreateData (title description : JSValue) (userId : JSNumber) (defaultCategoryId : JSValue) :
    List (String × JSValue) :=
  spread
    [("title", title),
     ("description", nullish description .null),
     ("completed", .bool false),
     ("userId", .number userId)]
    (if truthy defaultCategoryId then obj [("categoryId", defaultCategoryId)] else obj [])

/-- The `data` of an update for a body that is an object with the given own fields. -/
def updateFields (fields : List (String × JSValue)) : List (String × JSValue) :=
  let d0 : List (String × JSValue) := []
  let d1 := if "title" ∈ keys fields then setProp "title" (ownValue (.object fields) "title") d0 else d0
  let d2 := if "description" ∈ keys fields then
    setProp "description" (ownValue (.object fields) "description") d1 else d1
  let d3 := if "completed" ∈ keys fields then
    setProp "completed" (.bool (truthy (ownValue (.object fields) "completed"))) d2 else d2
  if "categoryId" ∈ keys fields then
    setProp "categoryId" (ownValue (.object fields) "categoryId") d3 else d3

/-- How the construction of `data` ends for each kind of body: the fields for an object,
no field for an array, the TypeError of the first `in` for anything else. -/
def updateOutcome (body : JSValue) : Except JSError (List (String × JSValue)) :=
  match body with
  | .object fields => .ok (updateFields fields)
  | .array _ => .ok []
  | _ => .error (cannotUseIn "title")

/-- The field `k` of the payload when the body has it with value `v`. -/
def payloadField (k : String) (v : Option JSValue) : List (String × JSValue) :=
  match v with
  | some w => [(k, w)]
  | none => []

/-! ## Basic facts -/

set_option maxRecDepth 100000 in
theorem appointmentsSql_eq_render : appointmentsSql = appointmentsQuery.render := by
  decide

theorem lookup_eq_none {k : String} {fields : List (String × JSValue)}
    (h : k ∉ keys fields) : lookup k fields = none := by
  induction fields with
  | nil => rfl
  | cons kv rest ih =>
    obtain ⟨k', v⟩ := kv
    simp only [keys, List.map_cons, List.mem_cons, not_or] at h
    have hk : ¬ k' = k := fun e => h.1 e.symm
    simp only [lookup, hk, if_false]
    exact ih h.2

/-! ### The effect type -/

theorem Eff.bind_ok {α β : Type} (evs : List Event) (a : α) (f : α → Eff β) :
    ((⟨evs, .ok a⟩ : Eff α) >>= f) = ⟨evs ++ (f a).events, (f a).outcome⟩ := rfl

theorem Eff.bind_error {α β : Type} (evs : List Event) (e : JSError) (f : α → Eff β) :
    ((⟨evs, .error e⟩ : Eff α) >>= f) = ⟨evs, .error e⟩ := rfl

theorem Eff.pure_eq {α : Type} (a : α) : (Pure.pure a : Eff α) = ⟨[], .ok a⟩ := rfl

theorem Eff.tryCatch_ok {α : Type} (evs : List Event) (a : α) (h : JSError → Eff α) :
    Eff.tryCatch ⟨evs, .ok a⟩ h = ⟨evs, .ok a⟩ := rfl

theorem Eff.tryCatch_error {α : Type} (evs : List Event) (e : JSError) (h : JSError → Eff α) :
    Eff.tryCatch ⟨evs, .error e⟩ h = ⟨evs ++ (h e).events, (h e).outcome⟩ := rfl

/-! ### Property access -/

theorem jsGet_jsOr (body : JSValue) (k : String) :
    jsGet (jsOr body (obj [])) k = ⟨[], .ok (ownValue body k)⟩ := by
  cases body with
  | undefined => rfl
  | null => rfl
  | bool b => cases b <;> rfl
  | number n =>
    cases n with
    | nan => rfl
    | infinity s => rfl
    | finite s m e =>
      by_cases hm : m = 0
      · subst hm; rfl
      · have : truthy (.number (.finite s m e)) = true := by simp [truthy, hm]
        simp [jsOr, this, jsGet, ownValue, Eff.pure]
  | string s =>
    by_cases hs : s.data = []
    · have : truthy (.string s) = false := by simp [truthy, hs]
      simp [jsOr, this, jsGet, ownValue, Eff.pure, lookup]
    · have : truthy (.string s) = true := by simp [truthy, hs]
      simp [jsOr, this, jsGet, ownValue, Eff.pure]
  | array xs => rfl
  | object fs => rfl

theorem ownValue_of_not_hasOwn {v : JSValue} {k : String} (h : hasOwn v k = false) :
    ownValue v k = .undefined := by
  cases v <;> try rfl
  case object fs =>
    simp only [hasOwn, decide_eq_false_iff_not] at h
    simp [ownValue, lookup_eq_none h]

/-! ### Normal forms of the handlers -/

theorem postUsers_eq (prisma : Prisma) (req : Request) :
    postUsers prisma req =
      if !truthy (ownValue req.body "name") || !truthy (ownValue req.body "email") then
        ⟨[errorResponse 400 "name y email son requeridos"], .ok ()⟩
      else
        match prisma (userCreateCall (ownValue req.body "name") (ownValue req.body "email")) with
        | .ok u =>
          ⟨[.storeCall (userCreateCall (ownValue req.body "name") (ownValue req.body "email")),
            .respond 201 (.json u)], .ok ()⟩
        | .error e =>
          ⟨[.storeCall (userCreateCall (ownValue req.body "name") (ownValue req.body "email")),
            .consoleError "POST /api/users" e,
            errorResponse 500 "No se pudo crear usuario (¿email duplicado?)"], .ok ()⟩ := by
  simp only [postUsers, jsGet_jsOr, Eff.bind_ok, List.nil_append]
  split
  · rfl
  · simp only [prismaCall, userCreateCall]
    cases prisma _ <;> rfl

theorem getUsers_eq (prisma : Prisma) (req : Request) :
    getUsers prisma req =
      match prisma userFindManyCall with
      | .ok users => ⟨[.storeCall userFindManyCall, .respond 200 (.json users)], .ok ()⟩
      | .error e =>
        ⟨[.storeCall userFindManyCall, .consoleError "GET /api/users" e,
          errorResponse 500 "No se pudieron listar usuarios"], .ok ()⟩ := by
  simp only [getUsers, prismaCall, userFindManyCall]
  cases prisma _ <;> rfl

theorem getUserTasks_eq (prisma : Prisma) (req : Request) :
    getUserTasks prisma req =
      if Number.isNaN (Number req.params.id) then
        ⟨[errorResponse 400 "userId inválido"], .ok ()⟩
      else
        match prisma (taskFindManyCall (Number req.params.id)) with
        | .ok tasks =>
          ⟨[.storeCall (taskFindManyCall (Number req.params.id)), .respond 200 (.json tasks)],
            .ok ()⟩
        | .error e =>
          ⟨[.storeCall (taskFindManyCall (Number req.params.id)),
            .consoleError "GET /api/users/:id/tasks" e,
            errorResponse 500 "No se pudieron listar tareas"], .ok ()⟩ := by
  simp only [getUserTasks]
  split
  · rfl
  · simp only [prismaCall, taskFindManyCall]
    cases prisma _ <;> rfl

theorem deleteTask_eq (prisma : Prisma) (req : Request) :
    deleteTask prisma req =
      if Number.isNaN (Number req.params.id) then
        ⟨[errorResponse 400 "id inválido"], .ok ()⟩
      else
        match prisma (taskDeleteCall (Number req.params.id)) with
        | .ok _ =>
          ⟨[.storeCall (taskDeleteCall (Number req.params.id)), .respond 204 .empty], .ok ()⟩
        | .error e =>
          ⟨[.storeCall (taskDeleteCall (Number req.params.id)),
            .consoleError "DELETE /api/tasks/:id" e,
            errorResponse 500 "No se pudo eliminar la tarea"], .ok ()⟩ := by
  simp only [deleteTask]
  split
  · rfl
  · simp only [prismaCall, taskDeleteCall]
    cases prisma _ <;> rfl

theorem getMedixPatients_eq (prisma : Prisma) (req : Request) :
    getMedixPatients prisma req =
      match prisma (rawQueryCall patientsSql) with
      | .ok rows => ⟨[.storeCall (rawQueryCall patientsSql), .respond 200 (.json rows)], .ok ()⟩
      | .error e =>
        ⟨[.storeCall (rawQueryCall patientsSql), .consoleError "GET /api/medix/patients" e,
          errorResponse 500 "No se pudieron cargar pacientes"], .ok ()⟩ := by
  simp only [getMedixPatients, queryRawUnsafe, prismaCall, rawQueryCall]
  cases prisma _ <;> rfl

theorem getMedixDoctors_eq (prisma : Prisma) (req : Request) :
    getMedixDoctors prisma req =
      match prisma (rawQueryCall doctorsSql) with
      | .ok rows => ⟨[.storeCall (rawQueryCall doctorsSql), .respond 200 (.json rows)], .ok ()⟩
      | .error e =>
        ⟨[.storeCall (rawQueryCall doctorsSql), .consoleError "GET /api/medix/doctors" e,
          errorResponse 500 "No se pudieron cargar doctores"], .ok ()⟩ := by
  simp only [getMedixDoctors, queryRawUnsafe, prismaCall, rawQueryCall]
  cases prisma _ <;> rfl

theorem getMedixAppointments_eq (prisma : Prisma) (req : Request) :
    getMedixAppointments prisma req =
      match prisma (rawQueryCall appointmentsSql) with
      | .ok rows =>
        ⟨[.storeCall (rawQueryCall appointmentsSql), .respond 200 (.json rows)], .ok ()⟩
      | .error e =>
        ⟨[.storeCall (rawQueryCall appointmentsSql), .consoleError "GET /api/medix/appointments" e,
          errorResponse 500 "No se pudieron cargar citas"], .ok ()⟩ := by
  simp only [getMedixAppointments, queryRawUnsafe, prismaCall, rawQueryCall]
  cases prisma _ <;> rfl

theorem ensureDefaultCategory_eq (prisma : Prisma) :
    ensureDefaultCategory prisma =
      ⟨.storeCall categoryUpsertCall :: (categoryOutcome (prisma categoryUpsertCall)).1,
        .ok (categoryOutcome (prisma categoryUpsertCall)).2⟩ := by
  simp only [ensureDefaultCategory, prismaCall, categoryUpsertCall]
  cases prisma _ with
  | error e => rfl
  | ok cat => cases cat <;> rfl

theorem postUserTasks_eq (prisma : Prisma) (req : Request) :
    postUserTasks prisma req =
      if Number.isNaN (Number req.params.id) then
        ⟨[errorResponse 400 "userId inválido"], .ok ()⟩
      else if !truthy (ownValue req.body "title") then
        ⟨[errorResponse 400 "title es requerido"], .ok ()⟩
      else
        match prisma (taskCreateCall (taskCreateData (ownValue req.body "title")
            (ownValue req.body "description") (Number req.params.id)
            (categoryOutcome (prisma categoryUpsertCall)).2)) with
        | .ok t =>
          ⟨.storeCall categoryUpsertCall :: (categoryOutcome (prisma categoryUpsertCall)).1 ++
            [.storeCall (taskCreateCall (taskCreateData (ownValue req.body "title")
              (ownValue req.body "description") (Number req.params.id)
              (categoryOutcome (prisma categoryUpsertCall)).2)),
             .respond 201 (.json t)], .ok ()⟩
        | .error e =>
          ⟨.storeCall categoryUpsertCall :: (categoryOutcome (prisma categoryUpsertCall)).1 ++
            [.storeCall (taskCreateCall (taskCreateData (ownValue req.body "title")
              (ownValue req.body "description") (Number req.params.id)
              (categoryOutcome (prisma categoryUpsertCall)).2)),
             .consoleError "POST /api/users/:id/tasks" e,
             errorResponse 500 "No se pudo crear la tarea"], .ok ()⟩ := by
  simp only [postUserTasks]
  split
  · rfl
  · simp only [jsGet_jsOr, Eff.bind_ok, List.nil_append]
    split
    · rfl
    · simp only [ensureDefaultCategory_eq, Eff.bind_ok, prismaCall, taskCreateCall, taskCreateData]
      generalize categoryOutcome (prisma categoryUpsertCall) = co
      cases prisma _ <;>
        simp [Eff.bind_error, Eff.bind_ok, Eff.tryCatch_error, Eff.tryCatch_ok, resJson, emit,
          consoleError, httpError, errorResponse]

theorem jsIn_object (k : String) (fields : List (String × JSValue))
    (hk : k ∉ objectPrototypeKeys) :
    jsIn k (.object fields) = ⟨[], .ok (decide (k ∈ keys fields))⟩ := by
  simp [jsIn, hk, Eff.pure]

theorem jsIn_array (k : String) (items : List JSValue)
    (hn : numeral 10 k.data = none) (ha : k ∉ arrayPrototypeKeys) (hk : k ∉ objectPrototypeKeys) :
    jsIn k (.array items) = ⟨[], .ok false⟩ := by
  simp [jsIn, hk, ha, isIndexBelow, hn, Eff.pure]

theorem updateData_object (fields : List (String × JSValue)) :
    updateData (.object fields) = ⟨[], .ok (updateFields fields)⟩ := by
  have h1 := jsIn_object "title" fields (by decide)
  have h2 := jsIn_object "description" fields (by decide)
  have h3 := jsIn_object "completed" fields (by decide)
  have h4 := jsIn_object "categoryId" fields (by decide)
  simp only [updateData, h1, h2, h3, h4, Eff.bind_ok, updateFields, jsGet, ownValue, Eff.pure]
  by_cases c1 : "title" ∈ keys fields <;> by_cases c2 : "description" ∈ keys fields <;>
    by_cases c3 : "completed" ∈ keys fields <;> by_cases c4 : "categoryId" ∈ keys fields <;>
    simp [c1, c2, c3, c4, Eff.bind_ok, Eff.pure_eq]

theorem updateData_array (items : List JSValue) :
    updateData (.array items) = ⟨[], .ok []⟩ := by
  have h1 := jsIn_array "title" items (by decide) (by decide) (by decide)
  have h2 := jsIn_array "description" items (by decide) (by decide) (by decide)
  have h3 := jsIn_array "completed" items (by decide) (by decide) (by decide)
  have h4 := jsIn_array "categoryId" items (by decide) (by decide) (by decide)
  simp [updateData, h1, h2, h3, h4, Eff.bind_ok, Eff.pure_eq]

theorem updateData_eq (body : JSValue) : updateData body = ⟨[], updateOutcome body⟩ := by
  cases body with
  | object fields => exact updateData_object fields
  | array items => exact updateData_array items
  | undefined => rfl
  | null => rfl
  | bool b => rfl
  | number n => rfl
  | string s => rfl

theorem putTask_eq (prisma : Prisma) (req : Request) :
    putTask prisma req =
      if Number.isNaN (Number req.params.id) then
        ⟨[errorResponse 400 "id inválido"], .ok ()⟩
      else
        match updateOutcome req.body with
        | .error e =>
          ⟨[.consoleError "PUT /api/tasks/:id" e,
            errorResponse 500 "No se pudo actualizar la tarea"], .ok ()⟩
        | .ok data =>
          match prisma (taskUpdateCall (Number req.params.id) data) with
          | .ok t =>
            ⟨[.storeCall (taskUpdateCall (Number req.params.id) data), .respond 200 (.json t)],
              .ok ()⟩
          | .error e =>
            ⟨[.storeCall (taskUpdateCall (Number req.params.id) data),
              .consoleError "PUT /api/tasks/:id" e,
              errorResponse 500 "No se pudo actualizar la tarea"], .ok ()⟩ := by
  simp only [putTask, updateData_eq]
  split
  · rfl
  · cases updateOutcome req.body with
    | error e => rfl
    | ok data =>
      simp only [Eff.bind_ok, prismaCall, taskUpdateCall, List.nil_append]
      cases prisma _ <;> rfl

/-! ### The update payload -/

theorem mem_keys_of_lookup {k : String} {fields : List (String × JSValue)} {v : JSValue}
    (h : lookup k fields = some v) : k ∈ keys fields := by
  by_contra hk
  rw [lookup_eq_none hk] at h
  cases h

theorem not_mem_keys_of_lookup {k : String} {fields : List (String × JSValue)}
    (h : lookup k fields = none) : k ∉ keys fields := by
  induction fields with
  | nil => simp [keys]
  | cons kv rest ih =>
    obtain ⟨k', v⟩ := kv
    by_cases hk : k' = k
    · simp [lookup, hk] at h
    · simp only [lookup, hk, if_false] at h
      simp only [keys, List.map_cons, List.mem_cons, not_or]
      exact ⟨fun e => hk e.symm, ih h⟩

theorem mem_keys_iff_isSome (k : String) (fields : List (String × JSValue)) :
    k ∈ keys fields ↔ (lookup k fields).isSome = true := by
  cases h : lookup k fields with
  | none => simpa using not_mem_keys_of_lookup h
  | some v => simpa using mem_keys_of_lookup h

theorem updateFields_eq (fields : List (String × JSValue)) :
    updateFields fields =
      payloadField "title" (lookup "title" fields)
        ++ payloadField "description" (lookup "description" fields)
        ++ payloadField "completed"
            ((lookup "completed" fields).map (fun v => JSValue.bool (truthy v)))
        ++ payloadField "categoryId" (lookup "categoryId" fields) := by
  cases h1 : lookup "title" fields <;> cases h2 : lookup "description" fields <;>
    cases h3 : lookup "completed" fields <;> cases h4 : lookup "categoryId" fields <;>
    simp [updateFields, mem_keys_iff_isSome, h1, h2, h3, h4, ownValue, setProp, payloadField]

theorem mem_keys_updateFields (fields : List (String × JSValue)) (k : String) :
    k ∈ keys (updateFields fields)
      ↔ k ∈ ["title", "description", "completed", "categoryId"] ∧ k ∈ keys fields := by
  rw [updateFields_eq, mem_keys_iff_isSome k fields]
  cases h1 : lookup "title" fields <;> cases h2 : lookup "description" fields <;>
    cases h3 : lookup "completed" fields <;> cases h4 : lookup "categoryId" fields <;>
    simp only [payloadField, keys, Option.map, List.append_nil, List.nil_append, List.map_cons,
      List.map_nil, List.cons_append, List.mem_cons, List.mem_nil_iff, or_false] <;>
    constructor <;> intro h <;> aesop

theorem putTask_storeCalls_object (prisma : Prisma) (req : Request)
    (fields : List (String × JSValue))
    (hid : Number.isNaN (Number req.params.id) = false) (hb : req.body = .object fields) :
    storeCalls (putTask prisma req).events
      = [taskUpdateCall (Number req.params.id) (updateFields fields)] := by
  rw [putTask_eq]
  simp only [hid, hb, updateOutcome, Bool.false_eq_true, if_false]
  cases prisma _ <;> rfl

/-! ### The creation payload -/

theorem storeCalls_append (xs ys : List Event) :
    storeCalls (xs ++ ys) = storeCalls xs ++ storeCalls ys := by
  induction xs with
  | nil => rfl
  | cons x rest ih => cases x <;> simp [storeCalls, ih]

theorem responses_append (xs ys : List Event) :
    responses (xs ++ ys) = responses xs ++ responses ys := by
  induction xs with
  | nil => rfl
  | cons x rest ih => cases x <;> simp [responses, ih]

theorem storeCalls_categoryOutcome (r : Except JSError JSValue) :
    storeCalls (categoryOutcome r).1 = [] := by
  cases r with
  | error e => rfl
  | ok cat => cases cat <;> rfl

theorem responses_categoryOutcome (r : Except JSError JSValue) :
    responses (categoryOutcome r).1 = [] := by
  cases r with
  | error e => rfl
  | ok cat => cases cat <;> rfl

/-! ## The contract -/

/-- C1: a `POST /api/users` whose body lacks `name` or lacks `email` (no body at all
included) is answered with status 400 and the body `{error: ...}`, and no call is issued
to the data store. -/
theorem postUsers_missing_field (prisma : Prisma) (req : Request)
    (h : hasOwn req.body "name" = false ∨ hasOwn req.body "email" = false) :
    (postUsers prisma req).events
        = [.respond 400 (.json (obj [("error", str "name y email son requeridos")]))]
      ∧ storeCalls (postUsers prisma req).events = [] := by
  have hev : (postUsers prisma req).events = [errorResponse 400 "name y email son requeridos"] := by
    rw [postUsers_eq]
    rcases h with h | h
    · simp [ownValue_of_not_hasOwn h, truthy]
    · simp [ownValue_of_not_hasOwn h, truthy]
  rw [hev]
  exact ⟨rfl, rfl⟩

/-- C1 at a body with a name and no email, and at no body at all. -/
theorem postUsers_missing_field_witness :
    (hasOwn (obj [("name", str "Ana")]) "name" = false
        ∨ hasOwn (obj [("name", str "Ana")]) "email" = false)
      ∧ ((postUsers (resolving (obj [("id", int 1)])) ⟨⟨""⟩, obj [("name", str "Ana")]⟩).events
          = [.respond 400 (.json (obj [("error", str "name y email son requeridos")]))]
        ∧ storeCalls
            (postUsers (resolving (obj [("id", int 1)])) ⟨⟨""⟩, obj [("name", str "Ana")]⟩).events
          = []) :=
  ⟨Or.inr (by decide),
    postUsers_missing_field (resolving (obj [("id", int 1)])) ⟨⟨""⟩, obj [("name", str "Ana")]⟩
      (Or.inr (by decide))⟩

/-- C2, as stated, fails: the ids "1.5", "Infinity" and " " are no integers, yet
`Number` maps them to 1.5, Infinity and 0, none of them `NaN`, so each of the four handlers
goes on to its store call and answers with what the store decides (200, 201, 204 when it
resolves, 500 when it rejects), never with 400. -/
theorem non_integer_id_not_rejected :
    Number "1.5" = .finite false 15 (-1) ∧ Number "Infinity" = .infinity false
      ∧ Number " " = .finite false 0 0
      ∧ statuses (getUserTasks (resolving (.array [])) ⟨⟨"1.5"⟩, .undefined⟩).events = [200]
      ∧ statuses (getUserTasks (rejecting recordNotFound) ⟨⟨"1.5"⟩, .undefined⟩).events = [500]
      ∧ statuses (getUserTasks (resolving (.array [])) ⟨⟨"Infinity"⟩, .undefined⟩).events = [200]
      ∧ statuses (getUserTasks (resolving (.array [])) ⟨⟨" "⟩, .undefined⟩).events = [200]
      ∧ statuses (postUserTasks (resolving (obj [("id", int 1)]))
          ⟨⟨"1.5"⟩, obj [("title", str "Buy milk")]⟩).events = [201]
      ∧ statuses (postUserTasks (rejecting recordNotFound)
          ⟨⟨"1.5"⟩, obj [("title", str "Buy milk")]⟩).events = [500]
      ∧ statuses (putTask (resolving (obj [("id", int 1)])) ⟨⟨"Infinity"⟩, obj []⟩).events = [200]
      ∧ statuses (putTask (rejecting recordNotFound) ⟨⟨"Infinity"⟩, obj []⟩).events = [500]
      ∧ statuses (deleteTask (resolving (obj [("id", int 1)])) ⟨⟨" "⟩, .undefined⟩).events = [204]
      ∧ statuses (deleteTask (rejecting recordNotFound) ⟨⟨" "⟩, .undefined⟩).events = [500] := by
  refine ⟨by decide, by decide, by decide, ?_, ?_, ?_, ?_, ?_, ?_, ?_, ?_, ?_, ?_⟩ <;> rfl

/-- C2, amended: when `Number(req.params.id)` is `NaN`, each of `GET /api/users/:id/tasks`,
`POST /api/users/:id/tasks`, `PUT /api/tasks/:id` and `DELETE /api/tasks/:id` answers with
status 400 and the error envelope, and does nothing else. -/
theorem nan_id_rejected (prisma : Prisma) (req : Request)
    (h : Number.isNaN (Number req.params.id) = true) :
    (getUserTasks prisma req).events = [errorResponse 400 "userId inválido"]
      ∧ (postUserTasks prisma req).events = [errorResponse 400 "userId inválido"]
      ∧ (putTask prisma req).events = [errorResponse 400 "id inválido"]
      ∧ (deleteTask prisma req).events = [errorResponse 400 "id inválido"] := by
  rw [getUserTasks_eq, postUserTasks_eq, putTask_eq, deleteTask_eq]
  simp [h]

/-- C2, amended, at the id "abc". -/
theorem nan_id_rejected_witness :
    Number.isNaN (Number "abc") = true
      ∧ ((getUserTasks (resolving (.array [])) ⟨⟨"abc"⟩, obj []⟩).events
          = [errorResponse 400 "userId inválido"]
        ∧ (postUserTasks (resolving (.array [])) ⟨⟨"abc"⟩, obj []⟩).events
          = [errorResponse 400 "userId inválido"]
        ∧ (putTask (resolving (.array [])) ⟨⟨"abc"⟩, obj []⟩).events
          = [errorResponse 400 "id inválido"]
        ∧ (deleteTask (resolving (.array [])) ⟨⟨"abc"⟩, obj []⟩).events
          = [errorResponse 400 "id inválido"]) :=
  ⟨by decide, nan_id_rejected (resolving (.array [])) ⟨⟨"abc"⟩, obj []⟩ (by decide)⟩

/-- C3: for a `PUT /api/tasks/:id` with a numeric id and an object body, the `data` handed
to the store has a key `k` exactly when `k` is one of `title`, `description`, `completed`,
`categoryId` and the body has `k`; for the body `{completed: true}` it is exactly
`{completed: true}`. -/
theorem putTask_payload_keys (prisma : Prisma) (req : Request)
    (fields : List (String × JSValue))
    (hid : Number.isNaN (Number req.params.id) = false) (hb : req.body = .object fields) :
    ∃ data, storeCalls (putTask prisma req).events = [taskUpdateCall (Number req.params.id) data]
      ∧ (∀ k, k ∈ keys data
          ↔ k ∈ ["title", "description", "completed", "categoryId"] ∧ k ∈ keys fields)
      ∧ (fields = [("completed", .bool true)] → data = [("completed", .bool true)]) := by
  refine ⟨updateFields fields, putTask_storeCalls_object prisma req fields hid hb,
    mem_keys_updateFields fields, ?_⟩
  intro hf
  subst hf
  rfl

/-- C3 at the body `{completed: true}` and the id "7". -/
theorem putTask_payload_keys_witness :
    Number.isNaN (Number "7") = false
      ∧ ∃ data,
        storeCalls (putTask (resolving (obj [("id", int 7)]))
            ⟨⟨"7"⟩, obj [("completed", .bool true)]⟩).events
          = [taskUpdateCall (Number "7") data]
        ∧ (∀ k, k ∈ keys data
            ↔ k ∈ ["title", "description", "completed", "categoryId"]
              ∧ k ∈ keys [("completed", JSValue.bool true)])
        ∧ ([("completed", JSValue.bool true)] = [("completed", JSValue.bool true)]
            → data = [("completed", .bool true)]) :=
  ⟨by decide,
    putTask_payload_keys (resolving (obj [("id", int 7)]))
      ⟨⟨"7"⟩, obj [("completed", .bool true)]⟩ [("completed", .bool true)] (by decide) rfl⟩

/-- C4: for a `PUT /api/tasks/:id` with a numeric id whose body has `completed` with any
value `v`, the `completed` of the `data` handed to the store is the boolean `true` when `v`
is truthy and the boolean `false` otherwise, and `title`, `description` and `categoryId`
are in `data` with the body's values exactly as far as the body has them. -/
theorem putTask_completed_coerced (prisma : Prisma) (req : Request)
    (fields : List (String × JSValue)) (v : JSValue)
    (hid : Number.isNaN (Number req.params.id) = false) (hb : req.body = .object fields)
    (hv : lookup "completed" fields = some v) :
    ∃ data, storeCalls (putTask prisma req).events = [taskUpdateCall (Number req.params.id) data]
      ∧ lookup "completed" data = some (.bool (truthy v))
      ∧ lookup "title" data = lookup "title" fields
      ∧ lookup "description" data = lookup "description" fields
      ∧ lookup "categoryId" data = lookup "categoryId" fields := by
  refine ⟨updateFields fields, putTask_storeCalls_object prisma req fields hid hb, ?_⟩
  rw [updateFields_eq, hv]
  cases h1 : lookup "title" fields <;> cases h2 : lookup "description" fields <;>
    cases h4 : lookup "categoryId" fields <;>
    simp [payloadField, lookup]

/-- C4 at the body `{title: "T", completed: "yes"}`: the string is coerced to `true`. -/
theorem putTask_completed_coerced_witness :
    (Number.isNaN (Number "7") = false
        ∧ lookup "completed" [("title", str "T"), ("completed", str "yes")] = some (str "yes"))
      ∧ ∃ data,
        storeCalls (putTask (resolving (obj [("id", int 7)]))
            ⟨⟨"7"⟩, obj [("title", str "T"), ("completed", str "yes")]⟩).events
          = [taskUpdateCall (Number "7") data]
        ∧ lookup "completed" data = some (.bool (truthy (str "yes")))
        ∧ lookup "title" data = lookup "title" [("title", str "T"), ("completed", str "yes")]
        ∧ lookup "description" data
            = lookup "description" [("title", str "T"), ("completed", str "yes")]
        ∧ lookup "categoryId" data
            = lookup "categoryId" [("title", str "T"), ("completed", str "yes")] :=
  ⟨⟨by decide, rfl⟩,
    putTask_completed_coerced (resolving (obj [("id", int 7)]))
      ⟨⟨"7"⟩, obj [("title", str "T"), ("completed", str "yes")]⟩
      [("title", str "T"), ("completed", str "yes")] (str "yes") (by decide) rfl rfl⟩

/-- C10: for a `PUT /api/tasks/:id` with a numeric id, a body that is `undefined` or `null`
makes the first `in` throw: the handler logs, answers 500 with the update error envelope
and issues no store call; the empty object body `{}` issues the update with empty `data`. -/
theorem putTask_absent_body (prisma : Prisma) (req : Request)
    (hid : Number.isNaN (Number req.params.id) = false) :
    (req.body = .undefined ∨ req.body = .null →
        (putTask prisma req).events
            = [.consoleError "PUT /api/tasks/:id" (cannotUseIn "title"),
               .respond 500 (.json (obj [("error", str "No se pudo actualizar la tarea")]))]
          ∧ statuses (putTask prisma req).events = [500]
          ∧ storeCalls (putTask prisma req).events = [])
      ∧ (req.body = obj [] →
          storeCalls (putTask prisma req).events = [taskUpdateCall (Number req.params.id) []]) := by
  constructor
  · intro hb
    have hev : (putTask prisma req).events
        = [.consoleError "PUT /api/tasks/:id" (cannotUseIn "title"),
           .respond 500 (.json (obj [("error", str "No se pudo actualizar la tarea")]))] := by
      rw [putTask_eq]
      rcases hb with hb | hb <;>
        simp only [hid, hb, updateOutcome, Bool.false_eq_true, if_false] <;> rfl
    rw [hev]
    exact ⟨rfl, rfl, rfl⟩
  · intro hb
    exact putTask_storeCalls_object prisma req [] hid hb

/-- C10 with no body and with the body `{}`, id "7". -/
theorem putTask_absent_body_witness :
    Number.isNaN (Number "7") = false
      ∧ statuses (putTask (resolving (obj [("id", int 7)])) ⟨⟨"7"⟩, .undefined⟩).events = [500]
      ∧ storeCalls (putTask (resolving (obj [("id", int 7)])) ⟨⟨"7"⟩, .undefined⟩).events = []
      ∧ storeCalls (putTask (resolving (obj [("id", int 7)])) ⟨⟨"7"⟩, obj []⟩).events
          = [taskUpdateCall (Number "7") []] :=
  ⟨by decide,
    ((putTask_absent_body (resolving (obj [("id", int 7)])) ⟨⟨"7"⟩, .undefined⟩
      (by decide)).1 (Or.inl rfl)).2.1,
    ((putTask_absent_body (resolving (obj [("id", int 7)])) ⟨⟨"7"⟩, .undefined⟩
      (by decide)).1 (Or.inl rfl)).2.2,
    (putTask_absent_body (resolving (obj [("id", int 7)])) ⟨⟨"7"⟩, obj []⟩ (by decide)).2 rfl⟩

/-- C9: every handler completes normally having sent exactly one response, and when that
response has status 400 no store call was issued (for task creation not even the upsert
of the default category). -/
theorem one_response (route : Route) (prisma : Prisma) (req : Request) :
    (handler route prisma req).outcome = .ok ()
      ∧ ∃ status body, responses (handler route prisma req).events = [(status, body)]
        ∧ (status = 400 → storeCalls (handler route prisma req).events = []) := by
  cases route <;> simp only [handler]
  case health => exact ⟨rfl, 200, _, rfl, fun h => absurd h (by decide)⟩
  case root => exact ⟨rfl, 200, _, rfl, fun h => absurd h (by decide)⟩
  case listUsers =>
    rw [getUsers_eq]
    cases prisma userFindManyCall with
    | ok v => exact ⟨rfl, 200, _, rfl, fun h => absurd h (by decide)⟩
    | error e => exact ⟨rfl, 500, _, rfl, fun h => absurd h (by decide)⟩
  case patients =>
    rw [getMedixPatients_eq]
    cases prisma (rawQueryCall patientsSql) with
    | ok v => exact ⟨rfl, 200, _, rfl, fun h => absurd h (by decide)⟩
    | error e => exact ⟨rfl, 500, _, rfl, fun h => absurd h (by decide)⟩
  case doctors =>
    rw [getMedixDoctors_eq]
    cases prisma (rawQueryCall doctorsSql) with
    | ok v => exact ⟨rfl, 200, _, rfl, fun h => absurd h (by decide)⟩
    | error e => exact ⟨rfl, 500, _, rfl, fun h => absurd h (by decide)⟩
  case appointments =>
    rw [getMedixAppointments_eq]
    cases prisma (rawQueryCall appointmentsSql) with
    | ok v => exact ⟨rfl, 200, _, rfl, fun h => absurd h (by decide)⟩
    | error e => exact ⟨rfl, 500, _, rfl, fun h => absurd h (by decide)⟩
  case createUser =>
    rw [postUsers_eq]
    split
    · exact ⟨rfl, 400, _, rfl, fun _ => rfl⟩
    · cases prisma _ with
      | ok v => exact ⟨rfl, 201, _, rfl, fun h => absurd h (by decide)⟩
      | error e => exact ⟨rfl, 500, _, rfl, fun h => absurd h (by decide)⟩
  case listTasks =>
    rw [getUserTasks_eq]
    split
    · exact ⟨rfl, 400, _, rfl, fun _ => rfl⟩
    · cases prisma _ with
      | ok v => exact ⟨rfl, 200, _, rfl, fun h => absurd h (by decide)⟩
      | error e => exact ⟨rfl, 500, _, rfl, fun h => absurd h (by decide)⟩
  case deleteTask =>
    rw [deleteTask_eq]
    split
    · exact ⟨rfl, 400, _, rfl, fun _ => rfl⟩
    · cases prisma _ with
      | ok v => exact ⟨rfl, 204, _, rfl, fun h => absurd h (by decide)⟩
      | error e => exact ⟨rfl, 500, _, rfl, fun h => absurd h (by decide)⟩
  case updateTask =>
    rw [putTask_eq]
    split
    · exact ⟨rfl, 400, _, rfl, fun _ => rfl⟩
    · cases updateOutcome req.body with
      | error e => exact ⟨rfl, 500, _, rfl, fun h => absurd h (by decide)⟩
      | ok data =>
        dsimp only
        cases prisma (taskUpdateCall (Number req.params.id) data) with
        | ok v => exact ⟨rfl, 200, _, rfl, fun h => absurd h (by decide)⟩
        | error e => exact ⟨rfl, 500, _, rfl, fun h => absurd h (by decide)⟩
  case createTask =>
    rw [postUserTasks_eq]
    split
    · exact ⟨rfl, 400, _, rfl, fun _ => rfl⟩
    · split
      · exact ⟨rfl, 400, _, rfl, fun _ => rfl⟩
      · cases prisma (taskCreateCall _) with
        | ok v =>
          refine ⟨rfl, 201, .json v, ?_, fun h => absurd h (by decide)⟩
          simp [responses, responses_append, responses_categoryOutcome]
        | error e =>
          refine ⟨rfl, 500, .json (obj [("error", str "No se pudo crear la tarea")]), ?_,
            fun h => absurd h (by decide)⟩
          simp [responses, responses_append, responses_categoryOutcome, errorResponse]

/-- C9 at a task creation without title: one response, 400, and no store call. -/
theorem one_response_witness :
    (handler .createTask (resolving (obj [("id", int 1)])) ⟨⟨"1"⟩, obj []⟩).outcome = .ok ()
      ∧ ∃ status body,
        responses (handler .createTask (resolving (obj [("id", int 1)])) ⟨⟨"1"⟩, obj []⟩).events
          = [(status, body)]
        ∧ (status = 400 →
          storeCalls (handler .createTask (resolving (obj [("id", int 1)])) ⟨⟨"1"⟩, obj []⟩).events
            = []) :=
  one_response .createTask (resolving (obj [("id", int 1)])) ⟨⟨"1"⟩, obj []⟩

/-- C6: when a store call issued by a handler, other than the upsert of the default
category, is rejected with any error `e`, the handler sends exactly one response: status
500 with the body `{error: msg}`, where `msg` is the fixed message of the route and nothing
of `e` is in it. A rejected `prisma.task.delete` (a task that does not exist) is such a
case: 500, not 404. -/
theorem store_failure_is_500 (route : Route) (prisma : Prisma) (req : Request)
    (c : StoreCall) (e : JSError)
    (hc : c ∈ storeCalls (handler route prisma req).events)
    (hne : c ≠ categoryUpsertCall) (he : prisma c = .error e) :
    ∃ msg, failureMessage route = some msg
      ∧ responses (handler route prisma req).events
          = [(500, .json (obj [("error", str msg)]))] := by
  cases route <;> simp only [handler] at hc ⊢
  case health => simp [getHealth, resJson, emit, storeCalls] at hc
  case root => simp [getRoot, emit, storeCalls] at hc
  case listUsers =>
    rw [getUsers_eq] at hc ⊢
    cases hp : prisma userFindManyCall with
    | ok v =>
      rw [hp] at hc
      simp only [storeCalls, List.mem_singleton] at hc
      rw [hc, hp] at he
      cases he
    | error e' => exact ⟨_, rfl, rfl⟩
  case patients =>
    rw [getMedixPatients_eq] at hc ⊢
    cases hp : prisma (rawQueryCall patientsSql) with
    | ok v =>
      rw [hp] at hc
      simp only [storeCalls, List.mem_singleton] at hc
      rw [hc, hp] at he
      cases he
    | error e' => exact ⟨_, rfl, rfl⟩
  case doctors =>
    rw [getMedixDoctors_eq] at hc ⊢
    cases hp : prisma (rawQueryCall doctorsSql) with
    | ok v =>
      rw [hp] at hc
      simp only [storeCalls, List.mem_singleton] at hc
      rw [hc, hp] at he
      cases he
    | error e' => exact ⟨_, rfl, rfl⟩
  case appointments =>
    rw [getMedixAppointments_eq] at hc ⊢
    cases hp : prisma (rawQueryCall appointmentsSql) with
    | ok v =>
      rw [hp] at hc
      simp only [storeCalls, List.mem_singleton] at hc
      rw [hc, hp] at he
      cases he
    | error e' => exact ⟨_, rfl, rfl⟩
  case createUser =>
    rw [postUsers_eq] at hc ⊢
    split at hc
    · simp [storeCalls, errorResponse] at hc
    · rename_i hcond
      simp only [hcond, if_false]
      cases hp : prisma (userCreateCall (ownValue req.body "name") (ownValue req.body "email")) with
      | ok v =>
        rw [hp] at hc
        simp only [storeCalls, List.mem_singleton] at hc
        rw [hc, hp] at he
        cases he
      | error e' => exact ⟨_, rfl, rfl⟩
  case listTasks =>
    rw [getUserTasks_eq] at hc ⊢
    split at hc
    · simp [storeCalls, errorResponse] at hc
    · rename_i hcond
      simp only [hcond, if_false]
      cases hp : prisma (taskFindManyCall (Number req.params.id)) with
      | ok v =>
        rw [hp] at hc
        simp only [storeCalls, List.mem_singleton] at hc
        rw [hc, hp] at he
        cases he
      | error e' => exact ⟨_, rfl, rfl⟩
  case deleteTask =>
    rw [deleteTask_eq] at hc ⊢
    split at hc
    · simp [storeCalls, errorResponse] at hc
    · rename_i hcond
      simp only [hcond, if_false]
      cases hp : prisma (taskDeleteCall (Number req.params.id)) with
      | ok v =>
        rw [hp] at hc
        simp only [storeCalls, List.mem_singleton] at hc
        rw [hc, hp] at he
        cases he
      | error e' => exact ⟨_, rfl, rfl⟩
  case updateTask =>
    rw [putTask_eq] at hc ⊢
    split at hc
    · simp [storeCalls, errorResponse] at hc
    · rename_i hcond
      simp only [hcond, if_false]
      cases hu : updateOutcome req.body with
      | error e' =>
        rw [hu] at hc
        simp [storeCalls, errorResponse] at hc
      | ok data =>
        rw [hu] at hc
        dsimp only at hc ⊢
        cases hp : prisma (taskUpdateCall (Number req.params.id) data) with
        | ok v =>
          rw [hp] at hc
          simp only [storeCalls, List.mem_singleton] at hc
          rw [hc, hp] at he
          cases he
        | error e' => exact ⟨_, rfl, rfl⟩
  case createTask =>
    rw [postUserTasks_eq] at hc ⊢
    split at hc
    · simp [storeCalls, errorResponse] at hc
    · rename_i hcond
      simp only [hcond, if_false]
      split at hc
      · simp [storeCalls, errorResponse] at hc
      · rename_i hcond2
        simp only [hcond2, if_false]
        cases hp : prisma (taskCreateCall (taskCreateData (ownValue req.body "title")
            (ownValue req.body "description") (Number req.params.id)
            (categoryOutcome (prisma categoryUpsertCall)).2)) with
        | ok v =>
          rw [hp] at hc
          dsimp only at hc
          rw [List.cons_append, storeCalls, storeCalls_append, storeCalls_categoryOutcome] at hc
          simp only [storeCalls, List.nil_append, List.mem_cons, List.mem_singleton,
            List.mem_nil_iff, or_false] at hc
          rcases hc with hc | hc
          · exact absurd hc hne
          · rw [hc, hp] at he
            cases he
        | error e' =>
          refine ⟨_, rfl, ?_⟩
          simp [responses, responses_append, responses_categoryOutcome, errorResponse]

/-- C6 at the deletion of a task that does not exist: Prisma rejects, the answer is 500. -/
theorem store_failure_is_500_witness :
    (taskDeleteCall (Number "999")
          ∈ storeCalls (handler .deleteTask (rejecting recordNotFound) ⟨⟨"999"⟩, .undefined⟩).events
        ∧ taskDeleteCall (Number "999") ≠ categoryUpsertCall
        ∧ rejecting recordNotFound (taskDeleteCall (Number "999")) = .error recordNotFound)
      ∧ ∃ msg, failureMessage .deleteTask = some msg
        ∧ responses (handler .deleteTask (rejecting recordNotFound) ⟨⟨"999"⟩, .undefined⟩).events
            = [(500, .json (obj [("error", str msg)]))] :=
  ⟨⟨List.mem_singleton.mpr rfl,
      fun h => absurd (congrArg StoreCall.model h) (by decide), rfl⟩,
    store_failure_is_500 .deleteTask (rejecting recordNotFound) ⟨⟨"999"⟩, .undefined⟩
      (taskDeleteCall (Number "999")) recordNotFound (List.mem_singleton.mpr rfl)
      (fun h => absurd (congrArg StoreCall.model h) (by decide)) rfl⟩

/-- C5: for a `POST /api/users/:id/tasks` with a numeric id and a truthy title, when the
upsert of the category "General" is rejected with any error, the handler still issues the
task creation, its `data` has the four fields title, description, completed, userId and no
`categoryId`, and the only response is 201 with the task when the creation resolves (500
only when the creation itself is rejected). -/
theorem category_failure_swallowed (prisma : Prisma) (req : Request) (e : JSError)
    (hid : Number.isNaN (Number req.params.id) = false)
    (ht : truthy (ownValue req.body "title") = true)
    (hc : prisma categoryUpsertCall = .error e) :
    ∃ data,
      data = [("title", ownValue req.body "title"),
              ("description", nullish (ownValue req.body "description") .null),
              ("completed", .bool false),
              ("userId", .number (Number req.params.id))]
      ∧ storeCalls (postUserTasks prisma req).events = [categoryUpsertCall, taskCreateCall data]
      ∧ "categoryId" ∉ keys data
      ∧ (∀ t, prisma (taskCreateCall data) = .ok t →
          responses (postUserTasks prisma req).events = [(201, .json t)])
      ∧ (∀ e', prisma (taskCreateCall data) = .error e' →
          responses (postUserTasks prisma req).events
            = [(500, .json (obj [("error", str "No se pudo crear la tarea")]))]) := by
  have hdata : taskCreateData (ownValue req.body "title") (ownValue req.body "description")
      (Number req.params.id) (categoryOutcome (Except.error e)).2
      = [("title", ownValue req.body "title"),
         ("description", nullish (ownValue req.body "description") .null),
         ("completed", .bool false),
         ("userId", .number (Number req.params.id))] := rfl
  refine ⟨_, rfl, ?_, by simp [keys], ?_, ?_⟩
  · rw [postUserTasks_eq]
    simp only [hid, ht, hc, hdata, Bool.not_true, Bool.false_eq_true, if_false]
    cases prisma (taskCreateCall _) <;> rfl
  · intro t hcreate
    rw [postUserTasks_eq]
    simp only [hid, ht, hc, hdata, hcreate, Bool.not_true, Bool.false_eq_true, if_false]
    rfl
  · intro e' hcreate
    rw [postUserTasks_eq]
    simp only [hid, ht, hc, hdata, hcreate, Bool.not_true, Bool.false_eq_true, if_false]
    rfl

/-- C5 at `POST /api/users/1/tasks {"title": "Buy milk"}` on a store without categories. -/
theorem category_failure_swallowed_witness :
    (Number.isNaN (Number "1") = false
        ∧ truthy (ownValue (obj [("title", str "Buy milk")]) "title") = true
        ∧ withoutCategories categoryTableMissing (obj [("id", int 5)])
            categoryUpsertCall = .error categoryTableMissing)
      ∧ ∃ data,
        data = [("title", ownValue (obj [("title", str "Buy milk")]) "title"),
                ("description", nullish (ownValue (obj [("title", str "Buy milk")]) "description")
                  .null),
                ("completed", .bool false),
                ("userId", .number (Number "1"))]
        ∧ storeCalls (postUserTasks
            (withoutCategories categoryTableMissing (obj [("id", int 5)]))
            ⟨⟨"1"⟩, obj [("title", str "Buy milk")]⟩).events
          = [categoryUpsertCall, taskCreateCall data]
        ∧ "categoryId" ∉ keys data
        ∧ (∀ t, withoutCategories categoryTableMissing
              (obj [("id", int 5)]) (taskCreateCall data) = .ok t →
            responses (postUserTasks
              (withoutCategories categoryTableMissing
                (obj [("id", int 5)]))
              ⟨⟨"1"⟩, obj [("title", str "Buy milk")]⟩).events = [(201, .json t)])
        ∧ (∀ e', withoutCategories categoryTableMissing
              (obj [("id", int 5)]) (taskCreateCall data) = .error e' →
            responses (postUserTasks
              (withoutCategories categoryTableMissing
                (obj [("id", int 5)]))
              ⟨⟨"1"⟩, obj [("title", str "Buy milk")]⟩).events
              = [(500, .json (obj [("error", str "No se pudo crear la tarea")]))]) :=
  ⟨⟨by decide, by decide, rfl⟩,
    category_failure_swallowed
      (withoutCategories categoryTableMissing (obj [("id", int 5)]))
      ⟨⟨"1"⟩, obj [("title", str "Buy milk")]⟩ categoryTableMissing
      (by decide) (by decide) rfl⟩

/-- C8, as stated, fails on the field names: the statement selects `a.scheduled_at`,
`a.motivo`, `a.status_code AS estado`, `p.nombre_completo AS paciente` and
`d.nombre_completo AS doctor`, the handler sends the rows as they come, so a row has the
fields id, scheduled_at, motivo, estado, paciente, doctor, and none of scheduledAt, reason,
statusCode, patientName, doctorName. -/
theorem appointment_fields_differ :
    appointmentsQuery.columns = ["id", "scheduled_at", "motivo", "estado", "paciente", "doctor"]
      ∧ appointmentsQuery.columns
          ≠ ["id", "scheduledAt", "reason", "statusCode", "patientName", "doctorName"]
      ∧ isResultOf appointmentsQuery (.array [sampleAppointment]) = true
      ∧ responses (getMedixAppointments (resolving (.array [sampleAppointment]))
          ⟨⟨""⟩, .undefined⟩).events = [(200, .json (.array [sampleAppointment]))]
      ∧ hasOwn sampleAppointment "scheduledAt" = false
      ∧ hasOwn sampleAppointment "patientName" = false := by
  refine ⟨by decide, by decide, by decide, rfl, by decide, by decide⟩

/-- C8, amended: when the store resolves the appointments statement with its rows, the
handler has issued that one statement, a `SELECT` ordered by `a.scheduled_at` descending,
and no other store call, and answers 200 with the rows exactly as the store yielded them
(same rows, same order); every row has exactly the fields the statement selects: id,
scheduled_at, motivo, estado, paciente, doctor. -/
theorem appointments_rows (prisma : Prisma) (req : Request) (rows : List JSValue)
    (hq : prisma (rawQueryCall appointmentsSql) = .ok (.array rows))
    (hres : isResultOf appointmentsQuery (.array rows) = true) :
    (getMedixAppointments prisma req).events
        = [.storeCall (rawQueryCall appointmentsSql), .respond 200 (.json (.array rows))]
      ∧ appointmentsSql = appointmentsQuery.render
      ∧ appointmentsQuery.orderBy = "a.scheduled_at" ∧ appointmentsQuery.descending = true
      ∧ ∀ r ∈ rows, ∃ fields, r = .object fields
          ∧ keys fields = ["id", "scheduled_at", "motivo", "estado", "paciente", "doctor"] := by
  refine ⟨?_, appointmentsSql_eq_render, rfl, rfl, ?_⟩
  · rw [getMedixAppointments_eq, hq]
  · intro r hr
    simp only [isResultOf, List.all_eq_true] at hres
    have h := hres r hr
    cases r with
    | object fields =>
      refine ⟨fields, rfl, ?_⟩
      have hk : keys fields = appointmentsQuery.columns := by simpa using h
      rw [hk]
      decide
    | _ => simp at h

/-- C8, amended, at a store holding one appointment. -/
theorem appointments_rows_witness :
    (resolving (.array [sampleAppointment]) (rawQueryCall appointmentsSql)
          = .ok (.array [sampleAppointment])
        ∧ isResultOf appointmentsQuery (.array [sampleAppointment]) = true)
      ∧ ((getMedixAppointments (resolving (.array [sampleAppointment]))
            ⟨⟨""⟩, .undefined⟩).events
          = [.storeCall (rawQueryCall appointmentsSql),
             .respond 200 (.json (.array [sampleAppointment]))]
        ∧ appointmentsSql = appointmentsQuery.render
        ∧ appointmentsQuery.orderBy = "a.scheduled_at" ∧ appointmentsQuery.descending = true
        ∧ ∀ r ∈ [sampleAppointment], ∃ fields, r = .object fields
            ∧ keys fields = ["id", "scheduled_at", "motivo", "estado", "paciente", "doctor"]) :=
  ⟨⟨rfl, by decide⟩,
    appointments_rows (resolving (.array [sampleAppointment])) ⟨⟨""⟩, .undefined⟩
      [sampleAppointment] rfl (by decide)⟩

end Server
